import Mathlib

/-!
Verification development for the operation-path model of an OpenAPI mock server
(src/lib/paths/path.js). The JavaScript code is shallowly embedded: JSON-like
runtime values become the inductive `JsVal`, the `Path` class becomes the
structure `Path`, and each method becomes a Lean function translated statement
by statement from the source. External collaborators that are not part of the
repository sources (the schema-validation primitive, the response generator,
the URI template binder, the preference-sentinel constant) are modelled from
the specification and marked as such in their doc comments.
-/

set_option autoImplicit false

deriving instance DecidableEq for Except

namespace OpenApiMock

/-- A JavaScript runtime value as observed by the code under verification:
`undefined`, `null`, booleans, numbers (modelled as rationals; `NaN` is a
separate constructor since it is produced by failed numeric coercion),
strings, arrays and plain objects (insertion-ordered string-keyed fields). -/
inductive JsVal where
  | undefined
  | null
  | nan
  | bool (b : Bool)
  | num (q : ℚ)
  | str (s : String)
  | arr (elems : List JsVal)
  | obj (fields : List (String × JsVal))

/-- JavaScript truthiness: `undefined`, `null`, `NaN`, `false`, `0` and the
empty string are falsy; every array and object is truthy. -/
def truthy : JsVal → Bool
  | .undefined => false
  | .null => false
  | .nan => false
  | .bool b => b
  | .num q => q ≠ 0
  | .str s => s ≠ ""
  | .arr _ => true
  | .obj _ => true

/-- The character `{` (written via its code point so that no brace appears in
code or strings). -/
def lbraceChar : Char := Char.ofNat 123

/-- The character `}`. -/
def rbraceChar : Char := Char.ofNat 125

/-- `s.includes(c)` on the underlying character list. -/
def strHasChar (s : String) (c : Char) : Bool := s.data.contains c

/-- ASCII lowercasing of a string; embeds `String.prototype.toLowerCase` for
the ASCII range exercised by HTTP header names. -/
def lowerStr (s : String) : String := String.mk (s.data.map Char.toLower)

/-- Decimal rendering of an integer, as JavaScript prints integral numbers. -/
def intToString (i : ℤ) : String := toString i

/-- Rendering of a number value. Integral rationals print like JavaScript
integers; the claims under verification only exercise integral numbers, so
non-integral rationals are given an unambiguous fraction rendering. -/
def numToString (q : ℚ) : String :=
  if q.den = 1 then intToString q.num else intToString q.num ++ "/" ++ toString q.den

mutual

/-- `String(v)` / `v.toString()` for the values the matcher stringifies:
arrays join their elements with commas (empty for `null`/`undefined`
elements), plain objects print as `[object Object]`. -/
def jsToString : JsVal → String
  | .undefined => "undefined"
  | .null => "null"
  | .nan => "NaN"
  | .bool b => if b then "true" else "false"
  | .num q => numToString q
  | .str s => s
  | .arr xs => jsArrToString xs
  | .obj _ => "[object Object]"

/-- `Array.prototype.toString` = `join(",")`. -/
def jsArrToString : List JsVal → String
  | [] => ""
  | [x] => jsElemToString x
  | x :: xs => jsElemToString x ++ "," ++ jsArrToString xs

/-- An array element inside `join`: `null` and `undefined` render as the
empty string. -/
def jsElemToString : JsVal → String
  | .undefined => ""
  | .null => ""
  | v => jsToString v

end

/-- Exceptions observable from the embedded code: `TypeError` (e.g.
`Object.entries` of `null`/`undefined`) and `SyntaxError` (`JSON.parse` of a
malformed document). -/
inductive JsErr where
  | typeError
  | syntaxError
deriving DecidableEq

/-- `Object.entries(v)`: throws a `TypeError` on `null`/`undefined`, indexes
the characters of a string, indexes the elements of an array, lists the own
fields of an object in insertion order, and is empty on other primitives. -/
def jsEntries : JsVal → Except JsErr (List (String × JsVal))
  | .undefined => .error .typeError
  | .null => .error .typeError
  | .str s => .ok (s.data.enum.map fun p => (toString p.1, JsVal.str (String.mk [p.2])))
  | .arr xs => .ok (xs.enum.map fun p => (toString p.1, p.2))
  | .obj fs => .ok fs
  | _ => .ok []

/-- Joins strings with a separator (a structurally recursive
`String.intercalate`). -/
def joinSep (sep : String) : List String → String
  | [] => ""
  | [x] => x
  | x :: xs => x ++ sep ++ joinSep sep xs

/-- `Object.entries(v).toString()`, the string the example matcher compares
facet values with (src/lib/paths/path.js lines 371, 389, 406). An entry pair
renders as `key,value` and the entry list joins with commas. -/
def entriesToString (v : JsVal) : Except JsErr String :=
  (jsEntries v).map fun l =>
    joinSep "," (l.map fun p => p.1 ++ "," ++ jsElemToString p.2)

/-- JavaScript whitespace trimmed by `Number()` string coercion. -/
def isJsWs (c : Char) : Bool := c = ' ' || c = '\t' || c = '\n' || c = '\r'

/-- All characters are decimal digits. -/
def allDigits (cs : List Char) : Bool := cs.all Char.isDigit

/-- Numeric value of a digit string. -/
def digitsToNat (cs : List Char) : ℕ := cs.foldl (fun a c => a * 10 + (c.toNat - 48)) 0

/-- Splits a character list at the first `.`, keeping track of whether a dot
was present. -/
def splitDot : List Char → List Char × Option (List Char)
  | [] => ([], none)
  | c :: rest =>
    if c = '.' then ([], some rest)
    else
      let p := splitDot rest
      (c :: p.1, p.2)

/-- Parses a (signed) decimal numeral, the fragment of `Number()` string
coercion the code exercises; `none` models `NaN`. Hexadecimal, exponent and
`Infinity` forms are outside the modelled subset (no claim exercises them). -/
def parseDecCore (cs : List Char) : Option ℚ :=
  let sc : ℚ × List Char :=
    match cs with
    | '-' :: r => (-1, r)
    | '+' :: r => (1, r)
    | _ => (1, cs)
  match splitDot sc.2 with
  | (ip, none) =>
    if ip ≠ [] ∧ allDigits ip then some (sc.1 * digitsToNat ip) else none
  | (ip, some fp) =>
    if (ip ≠ [] ∨ fp ≠ []) ∧ allDigits ip ∧ allDigits fp then
      some (sc.1 * ((digitsToNat ip : ℚ) + (digitsToNat fp : ℚ) / ((10 : ℚ) ^ fp.length)))
    else none

/-- `Number(s)` for a string: whitespace-trimmed, empty coerces to `0`. -/
def jsStrToNum (s : String) : Option ℚ :=
  let cs := ((s.data.dropWhile isJsWs).reverse.dropWhile isJsWs).reverse
  if cs = [] then some 0 else parseDecCore cs

/-- `Number(v)`: numeric coercion; `none` models `NaN`. Arrays coerce through
their string form, plain objects coerce to `NaN`. -/
def jsNumber : JsVal → Option ℚ
  | .num q => some q
  | .nan => none
  | .bool b => some (if b then 1 else 0)
  | .null => some 0
  | .undefined => none
  | .str s => jsStrToNum s
  | .arr xs => jsStrToNum (jsArrToString xs)
  | .obj _ => none

/-- Truncation toward zero, the effect of `parseInt(n, 10)` on a finite
number rendered in plain decimal notation (Lean's `Int` division truncates
toward zero, and a rational's denominator is positive). -/
def ratTrunc (q : ℚ) : ℤ := q.num / (q.den : ℤ)

mutual

/-- Boolean structural equality on `JsVal`. -/
def jsBeq : JsVal → JsVal → Bool
  | .undefined, .undefined => true
  | .null, .null => true
  | .nan, .nan => true
  | .bool a, .bool b => a = b
  | .num a, .num b => a = b
  | .str a, .str b => a = b
  | .arr a, .arr b => jsBeqList a b
  | .obj a, .obj b => jsBeqFields a b
  | _, _ => false

def jsBeqList : List JsVal → List JsVal → Bool
  | [], [] => true
  | a :: as_, b :: bs => jsBeq a b && jsBeqList as_ bs
  | _, _ => false

def jsBeqFields : List (String × JsVal) → List (String × JsVal) → Bool
  | [], [] => true
  | (ka, va) :: as_, (kb, vb) :: bs => ka = kb && jsBeq va vb && jsBeqFields as_ bs
  | _, _ => false

end

/-- Inserts a field into a key-sorted field list (used to canonicalize
objects the way the `object-hash` library ignores key order). -/
def insertByKey (p : String × JsVal) : List (String × JsVal) → List (String × JsVal)
  | [] => [p]
  | q :: rest => if p.1 ≤ q.1 then p :: q :: rest else q :: insertByKey p rest

mutual

/-- Canonical form of a value with object fields recursively sorted by key;
models the `object-hash` package used for body comparison: two values get the
same hash exactly when their canonical forms coincide ("compare with hash to
ignore case object key not same order", src/lib/paths/path.js line 423). -/
def canon : JsVal → JsVal
  | .arr xs => .arr (canonList xs)
  | .obj fs => .obj ((canonFields fs).foldr insertByKey [])
  | v => v

def canonList : List JsVal → List JsVal
  | [] => []
  | x :: xs => canon x :: canonList xs

def canonFields : List (String × JsVal) → List (String × JsVal)
  | [] => []
  | (k, v) :: fs => (k, canon v) :: canonFields fs

end

/-- `hash(a) === hash(b)` from the `object-hash` library: key-order
insensitive deep equality. -/
def hashEq (a b : JsVal) : Bool := jsBeq (canon a) (canon b)

/-- `util.inspect` rendering for the primitive values that appear in
validation error messages: strings are quoted, other primitives print their
JavaScript string form; composite values (which no claim exercises inside a
message) reuse their join form. -/
def inspect : JsVal → String
  | .str s => "'" ++ s ++ "'"
  | v => jsToString v

/-! ## Data model (spec.md section 3, mirroring the constructor of the `Path`
class and the shapes its methods read) -/

/-- A named example declaration, an entry of an `examples` map: only its
`value` field is read by the code. -/
structure ExampleDecl where
  value : JsVal

/-- A parameter schema as read by the validator: a structural type descriptor
with an optional enum (both may be absent in a loose document; `type` may
also be present but empty, which is falsy in the source's guard). -/
structure ParamSchema where
  type : Option String
  enum : Option (List JsVal)

/-- A parameter declaration. The source destructures the `in` field into the
local name `paramIn`, which we reuse since `in` is reserved. `required` and
`deprecated` default to false when absent, matching their use as truthiness
guards. `examples` distinguishes an absent map from a present empty one. -/
structure Param where
  paramIn : String
  name : String
  required : Bool
  deprecated : Bool
  schema : Option ParamSchema
  examples : Option (List (String × ExampleDecl))

/-- A `content` map entry: `(schema, examples)` under a mime type. The schema
itself is only handed to external collaborators, so it stays a `JsVal`. -/
structure MediaType where
  schema : Option JsVal
  examples : Option (List (String × ExampleDecl))

/-- The `requestBody` declaration. -/
structure RequestBody where
  required : Bool
  content : Option (List (String × MediaType))

/-- A declared response: optional `headers` map (header name to descriptor)
and optional `content` map (mime type to media type), in declaration order. -/
structure ResponseDecl where
  headers : Option (List (String × JsVal))
  content : Option (List (String × MediaType))

/-- The operation-path model, mirroring the `Path` class constructor
(src/lib/paths/path.js lines 12-29): `parameters` defaults to `[]` when
absent, so it is always a (truthy) array; `security` is never read by the
embedded methods and is omitted. -/
structure Path where
  uri : String
  httpMethod : String
  parameters : List Param
  requestBody : Option RequestBody
  responses : List (String × ResponseDecl)

/-- A normalized incoming request as destructured by
`validateRequestParameters` (src/lib/paths/path.js lines 31-47): four facet
maps plus an optional body. A key absent from a facet map models
`typeof requestParameters[name] === 'undefined'`. -/
structure JsRequest where
  headers : List (String × JsVal)
  query : List (String × JsVal)
  path : List (String × JsVal)
  cookies : List (String × JsVal)
  requestBody : Option JsVal

/-- Whether a facet value is absent in the JavaScript sense
(`typeof requestParameters[name] === 'undefined'`): no such key, or the key
explicitly bound to `undefined`. -/
def facetAbsent (m : List (String × JsVal)) (k : String) : Bool :=
  match List.lookup k m with
  | none => true
  | some .undefined => true
  | some _ => false

/-- Facet lookup that mirrors reading `requestParameters[name]`. -/
def facetGet (m : List (String × JsVal)) (k : String) : JsVal :=
  (List.lookup k m).getD .undefined

/-! ## Parameter and body validation (src/lib/paths/path.js lines 31-204) -/

/-- `isValidType` (src/lib/paths/path.js lines 165-188): returns the *error*
flag (`true` means the value is invalid for the declared type) and throws on
an unknown type declaration, modelled with `Except.error` carrying the
exception message. -/
def isValidType (type : String) (value : JsVal) : Except String Bool :=
  match type with
  | "array" =>
    .ok (match value with | .arr _ => false | _ => true)
  | "object" =>
    .ok (match value with
      | .obj _ => false
      | .null => false
      | _ => true)
  | "string" =>
    .ok (match value with | .str _ => false | _ => true)
  | "number" =>
    .ok (jsNumber value).isNone
  | "integer" =>
    .ok (match jsNumber value with
      | none => true
      | some q => decide ((ratTrunc q : ℚ) ≠ q))
  | "boolean" =>
    .ok (match value with
      | .bool _ => false
      | .str s => decide (s ≠ "true") && decide (s ≠ "false")
      | _ => true)
  | _ => .error ("Invalid type declaration " ++ type)

/-- `validateParameterType` (src/lib/paths/path.js lines 152-163). The source
reads `schema.type` under its caller's guard that the schema and a truthy
type are present, so the type string is taken directly. -/
def validateParameterType (paramIn name type : String) (value : JsVal) : Option String :=
  match isValidType type value with
  | .ok true =>
    some ("Invalid " ++ paramIn ++ " param " ++ name ++ ". Expected value of type " ++
      type ++ " but received " ++ inspect value)
  | .ok false => none
  | .error m => some (m ++ " for " ++ paramIn ++ " param " ++ name)

/-- `isValidEnumValue` (src/lib/paths/path.js lines 202-204): a missing or
empty enum accepts everything; otherwise membership by (structural) equality,
matching `includes` on the primitive values enums hold. -/
def isValidEnumValue (possibleValues : Option (List JsVal)) (value : JsVal) : Bool :=
  match possibleValues with
  | none => true
  | some [] => true
  | some l => l.any (jsBeq value)

/-- `validateParameterEnum` (src/lib/paths/path.js lines 190-200). -/
def validateParameterEnum (paramIn name : String) (enum : Option (List JsVal))
    (value : JsVal) : Option String :=
  if isValidEnumValue enum value then none
  else
    match enum with
    | some l =>
      some ("Invalid " ++ paramIn ++ " param " ++ name ++ ". Expected enum of [" ++
        joinSep ", " (l.map inspect) ++ "] but received " ++ inspect value)
    | none => none

/-- JavaScript `||` on validation results: a falsy (absent or empty) first
message yields the second. -/
def jsOrStr (a b : Option String) : Option String :=
  match a with
  | some s => if s = "" then b else some s
  | none => b

/-- `validateParameterSchema` (src/lib/paths/path.js lines 133-150): a
missing schema or a falsy `schema.type` is only warned about and treated as
valid; otherwise type check then enum check, the type failure
short-circuiting via `||`. -/
def validateParameterSchema (p : Param) (value : JsVal) : Option String :=
  match p.schema with
  | none => none
  | some schema =>
    match schema.type with
    | none => none
    | some t =>
      if t = "" then none
      else jsOrStr (validateParameterType p.paramIn p.name t value)
        (validateParameterEnum p.paramIn p.name schema.enum value)

/-- `_validateParameter` (src/lib/paths/path.js lines 110-131): missing
required value errors, optional-absent is valid, deprecated only warns, then
schema validation. -/
def _validateParameter (p : Param) (requestParameters : List (String × JsVal)) : Option String :=
  if facetAbsent requestParameters p.name then
    if p.required then
      some ("Missing required " ++ p.paramIn ++ " param " ++ p.name)
    else none
  else validateParameterSchema p (facetGet requestParameters p.name)

/-- `validateParameter` (src/lib/paths/path.js lines 87-108): dispatch on the
parameter location; header names are lowercased on the declaration side
before lookup. -/
def validateParameter (p : Param) (request : JsRequest) : Option String :=
  match p.paramIn with
  | "header" => _validateParameter { p with name := lowerStr p.name } request.headers
  | "query" => _validateParameter p request.query
  | "path" => _validateParameter p request.path
  | "cookie" => _validateParameter p request.cookies
  | _ => some ("Invalid declaration for " ++ p.paramIn ++ " param " ++ p.name)

/-- A reported violation of the external schema-validation primitive:
`(dataPath, message)` pairs (spec.md section 6). -/
structure SchemaError where
  dataPath : String
  message : String

/-- The type of the external schema-validation primitive consumed by
`validateRequestBody`; an `Except.error` models an exception thrown during
validation (e.g. a malformed schema), which the source catches. -/
def SchemaValidatorT : Type := JsVal → JsVal → Except String (List SchemaError)

/-- `dataPath.replace` of a single leading dot. -/
def stripLeadingDot (s : String) : String :=
  if s.startsWith "." then s.drop 1 else s

/-- `validateRequestBody` (src/lib/paths/path.js lines 49-85), parametrized
by the external schema validator. The deep clone defends against mutation,
which pure values make a no-op. A falsy body counts as not supplied. -/
def validateRequestBody (sv : SchemaValidatorT) (decl : Option RequestBody)
    (requestBody : Option JsVal) : List String :=
  match decl with
  | none => []
  | some rb =>
    let bodyTruthy := match requestBody with
      | some v => truthy v
      | none => false
    if !bodyTruthy then
      if rb.required then ["Missing required request body"] else []
    else
      match rb.content with
      | none => []
      | some content =>
        match List.lookup "application/json" content with
        | none => []
        | some mt =>
          match mt.schema with
          | none => []
          | some schema =>
            match sv ((requestBody).getD .undefined) schema with
            | .ok validationErrors =>
              validationErrors.map fun e =>
                let cleanDataPath := stripLeadingDot e.dataPath
                "Invalid request body:" ++
                  (if cleanDataPath = "" then "" else " '" ++ cleanDataPath ++ "'") ++
                  " " ++ e.message
            | .error m => [m]

/-- The truthiness filter `.filter(validation => !!validation)` applied to
the mapped parameter validations (src/lib/paths/path.js line 45): drops
absent results and would also drop an empty-string message. -/
def jsTruthyFilter (l : List (Option String)) : List String :=
  l.foldr (fun o acc =>
    match o with
    | some s => if s = "" then acc else s :: acc
    | none => acc) []

/-- `validateRequestParameters` (src/lib/paths/path.js lines 31-47): body
validation messages first, then the per-parameter validations in declaration
order, filtered by truthiness. -/
def validateRequestParameters (sv : SchemaValidatorT) (p : Path) (request : JsRequest) :
    List String :=
  validateRequestBody sv p.requestBody request.requestBody ++
    jsTruthyFilter (p.parameters.map fun parameter => validateParameter parameter request)

example : truthy (.str "") = false := by decide
example : entriesToString (.num 1) = .ok "" := by
  simp [entriesToString, jsEntries, Except.map, joinSep]
example : jsStrToNum "42.5" = some (85/2) := by
  simp [jsStrToNum, parseDecCore, splitDot, isJsWs, allDigits, digitsToNat]
  norm_num
example : entriesToString (.obj [("a", .num 1)]) = .ok "a,1" := by
  simp [entriesToString, jsEntries, Except.map, joinSep, jsElemToString, jsToString,
    numToString, intToString]
  decide
example : hashEq (.obj [("a", .num 1), ("b", .num 2)]) (.obj [("b", .num 2), ("a", .num 1)]) = true := by
  simp [hashEq, canon, canonFields, insertByKey, jsBeq, jsBeqFields]

/-! ## Response resolution (src/lib/paths/path.js lines 206-324) -/

/-- The example-name preference handed to `getResponse`: nothing, the
first-response sentinel, or a concrete example name. Modelled from the spec:
the sentinel constant `CONSTANTS.FIRST_RESPONSE` lives in a module that is
not among the sources; the spec describes it as a sentinel distinct from any
example name, which the dedicated constructor guarantees. -/
inductive ExamplePref where
  | noPref
  | first
  | name (s : String)
deriving DecidableEq

/-- The `RTag` metadata header value force-injected by
`getFirstResponseByExampleName`: an example-bearing descriptor whose single
example `ex_01` holds the requested name. -/
def rtagVal (n : String) : JsVal :=
  .obj [("examples", .obj [("ex_01", .obj [("value", .str n)])])]

/-- `headers.RTag = ...`: sets the `RTag` key of a headers map, overwriting
in place or appending. -/
def upsertRTag (hs : List (String × JsVal)) (n : String) : List (String × JsVal) :=
  if hs.any (fun p => p.1 = "RTag") then
    hs.map fun p => if p.1 = "RTag" then (p.1, rtagVal n) else p
  else hs ++ [("RTag", rtagVal n)]

/-- The destructuring `[[responseMimeType, responseContent] = []] =
Object.entries(response.content || ...)`: the first content entry, when
any. -/
def firstContent (r : ResponseDecl) : Option (String × MediaType) :=
  (r.content.getD []).head?

/-- Reads a field of an object value. -/
def getField (v : JsVal) (k : String) : Option JsVal :=
  match v with
  | .obj fs => List.lookup k fs
  | _ => none

/-- Modelled from the spec: the external response-generator primitive
applied to a header descriptor (spec.md section 6): it produces a
representative literal value honoring the descriptor's named examples; when
the descriptor carries an `examples` map the first example's `value` is
produced, and pure schema-driven generation (external to this repository) is
abstracted as `null`. -/
def generateHeader (descriptor : JsVal) : JsVal :=
  match getField descriptor "examples" with
  | some (.obj exs) =>
    match exs with
    | (_, ex) :: _ => (getField ex "value").getD .null
    | [] => .null
  | _ => .null

/-- Modelled from the spec: the external response-generator primitive
applied to a response content entry with an example-name hint: the hinted
named example's value when present, otherwise the first named example's
value, with schema-driven generation abstracted as `null`. -/
def generateFromMedia (mt : MediaType) (hint : Option String) : JsVal :=
  match mt.examples with
  | some exs =>
    match hint.bind fun h => List.lookup h exs with
    | some ex => ex.value
    | none =>
      match exs with
      | (_, ex) :: _ => ex.value
      | [] => .null
  | none => .null

/-- `generateResponseHeaders` (src/lib/paths/path.js lines 316-324): every
declared header descriptor goes through the response generator. -/
def generateResponseHeaders (headersSchema : List (String × JsVal)) : List (String × JsVal) :=
  headersSchema.map fun p => (p.1, generateHeader p.2)

/-- The raw tuple produced inside response resolution. The status code stays
a `JsVal` because the source mixes the number `400` with status-code map
*keys*, which are strings. -/
structure RawResult where
  statusCode : JsVal
  body : JsVal
  responseMimeType : Option String
  headers : Option (List (String × JsVal))

/-- The body of the `find` callback in `getFirstResponseByExampleName`
(src/lib/paths/path.js lines 272-301) applied to one `(statusCode, response)`
entry: when the first content entry has a non-empty examples map containing
the requested name with a truthy value, it yields the served result and the
response as mutated by the `headers.RTag` assignment (the declared headers
object is aliased, so the declaration itself changes whenever it exists). -/
def tryExampleResponse (n : String) (code : String) (resp : ResponseDecl) :
    Option (RawResult × ResponseDecl) :=
  match firstContent resp with
  | none => none
  | some (responseMimeType, responseContent) =>
    match responseContent.examples with
    | none => none
    | some exs =>
      if exs.length = 0 then none
      else
        match List.lookup n exs with
        | none => none
        | some ex =>
          if truthy ex.value then
            let headers := upsertRTag ((resp.headers).getD []) n
            some ({ statusCode := .str code, body := ex.value,
                    responseMimeType := some responseMimeType,
                    headers := some headers },
                  { resp with headers := match resp.headers with
                      | some _ => some headers
                      | none => none })
          else none

/-- `Object.entries(this.responses).find(...)` over the response list,
returning the found result together with the response list as left after the
callback's header mutation. -/
def scanResponses (n : String) :
    List (String × ResponseDecl) → Option RawResult × List (String × ResponseDecl)
  | [] => (none, [])
  | (code, resp) :: rest =>
    match tryExampleResponse n code resp with
    | some (res, resp2) => (some res, (code, resp2) :: rest)
    | none =>
      let p := scanResponses n rest
      (p.1, (code, resp) :: p.2)

/-- `getFirstResponseByExampleName` (src/lib/paths/path.js lines 252-306):
the default 400 response (with the diagnostic body and `RTag` header when a
name was requested), overridden by the first declared response containing the
named example. Returns the result, the response list after any header
mutation, and the emitted warnings. -/
def getFirstResponseByExampleName (responses : List (String × ResponseDecl))
    (preferredExampleName : Option String) :
    RawResult × List (String × ResponseDecl) × List String :=
  let nt : Option String := match preferredExampleName with
    | some s => if s = "" then none else some s
    | none => none
  let defaultResponse : RawResult :=
    { statusCode := .num 400,
      body := match nt with
        | some n =>
          .obj [("message",
            .str ("SYSTEM: Could not find a response for example name '" ++ n ++ "'"))]
        | none => .null,
      responseMimeType := some "application/json",
      headers := match nt with
        | some n => some [("RTag", rtagVal n)]
        | none => none }
  match nt with
  | none => (defaultResponse, responses, [])
  | some n =>
    match scanResponses n responses with
    | (some res, responses2) => (res, responses2, [])
    | (none, responses2) =>
      (defaultResponse, responses2,
        ["Could not find a response for example name " ++ n ++
          ". Responding with first response"])

/-- The tuple produced by `getResponseByStatusCode` / `getFirstResponse`
before `getResponse` converts and generates. -/
structure StatusResult where
  statusCode : String
  schema : Option MediaType
  responseMimeType : Option String
  headers : Option (List (String × JsVal))

/-- `getFirstResponse` (src/lib/paths/path.js lines 308-314): destructures
the first declared response; with zero responses declared the destructuring
itself throws (the construction-time invariant of spec.md section 7). -/
def getFirstResponse (responses : List (String × ResponseDecl)) : Except JsErr StatusResult :=
  match responses with
  | [] => .error .typeError
  | (statusCode, firstResponse) :: _ =>
    .ok { statusCode := statusCode,
          schema := (firstContent firstResponse).map fun p => p.2,
          responseMimeType := (firstContent firstResponse).map fun p => p.1,
          headers := firstResponse.headers }

/-- `getResponseByStatusCode` (src/lib/paths/path.js lines 238-250): an
undeclared status code warns and falls back to the first response. -/
def getResponseByStatusCode (responses : List (String × ResponseDecl)) (statusCode : String) :
    Except JsErr (StatusResult × List String) :=
  match List.lookup statusCode responses with
  | none =>
    (getFirstResponse responses).map fun r =>
      (r, ["Could not find a response for status code " ++ statusCode ++
        ". Responding with first response"])
  | some preferredResponse =>
    .ok ({ statusCode := statusCode,
           schema := (firstContent preferredResponse).map fun p => p.2,
           responseMimeType := (firstContent preferredResponse).map fun p => p.1,
           headers := preferredResponse.headers }, [])

/-- `Number(v)` as a value: a number, or `NaN` when the coercion fails. -/
def jsNumberVal (v : JsVal) : JsVal :=
  match jsNumber v with
  | some q => .num q
  | none => .nan

/-- What `getResponse` hands back, together with the operation's response
list after the call (capturing the header mutation performed by
`getFirstResponseByExampleName`) and the warnings emitted. -/
structure ResolveOut where
  result : RawResult
  responses : List (String × ResponseDecl)
  warnings : List String

/-- `getResponse` (src/lib/paths/path.js lines 206-236). With a truthy
preferred status code or the first-response sentinel, the chosen declared
response is generated from its schema (`Number(statusCode)` conversion
included); otherwise the named-example path is taken verbatim, with *no*
status-code conversion. For the generator hint the sentinel behaves like an
unknown name (its value matches no declared example). -/
def getResponse (p : Path) (preferredStatusCode : Option String) (pref : ExamplePref) :
    Except JsErr ResolveOut :=
  let scTruthy := match preferredStatusCode with
    | some s => s ≠ ""
    | none => false
  let prefName : Option String := match pref with
    | .name s => some s
    | _ => none
  if scTruthy || pref = ExamplePref.first then
    let chosen : Except JsErr (StatusResult × List String) :=
      match preferredStatusCode, scTruthy with
      | some sc, true => getResponseByStatusCode p.responses sc
      | _, _ => (getFirstResponse p.responses).map fun r => (r, [])
    chosen.map fun sr =>
      { result :=
          { statusCode := jsNumberVal (.str sr.1.statusCode),
            body := match sr.1.schema with
              | some mt => generateFromMedia mt prefName
              | none => .null,
            responseMimeType := sr.1.responseMimeType,
            headers := sr.1.headers.map generateResponseHeaders },
        responses := p.responses,
        warnings := sr.2 }
  else
    let out := getFirstResponseByExampleName p.responses prefName
    .ok { result :=
            { statusCode := out.1.statusCode,
              body := out.1.body,
              responseMimeType := out.1.responseMimeType,
              headers := out.1.headers.map generateResponseHeaders },
          responses := out.2.1,
          warnings := out.2.2 }

/-! ## Example matching (src/lib/paths/path.js lines 326-446) -/

/-- The raw query string handed to `findPreferredExampleByRequest`, seen
through the only two observations the code makes of it: truthiness and
`JSON.parse`. `absent` is a falsy value (missing or empty string),
`wellFormed v` a truthy string parsing to `v`, `malformed` a truthy string
on which `JSON.parse` throws. -/
inductive RawJson where
  | absent
  | wellFormed (v : JsVal)
  | malformed

/-- The request body argument: the source accepts either a string (parsed
with `JSON.parse`) or an already-parsed value, and skips the whole block when
the argument is falsy. -/
inductive BodyArg where
  | absent
  | strWellFormed (v : JsVal)
  | strMalformed
  | direct (v : JsVal)

/-- The matcher's verdict: the dead first-response sentinel branch, a found
example name, or the bare `undefined` of an unassigned `responseName`. -/
inductive MatchResult where
  | firstResponse
  | exampleName (s : String)
  | undefined
deriving DecidableEq

/-- `if(!counter[name]) counter[name] = 0; counter[name]++` on an
insertion-ordered tally. -/
def tallyBump : List (String × ℕ) → String → List (String × ℕ)
  | [], k => [(k, 1)]
  | (k2, v) :: rest, k =>
    if k2 = k then (k2, v + 1) :: rest else (k2, v) :: tallyBump rest k

/-- Tallies every example name of one examples map. -/
def tallyExamples (exs : List (String × ExampleDecl)) (acc : List (String × ℕ)) :
    List (String × ℕ) :=
  exs.foldl (fun a e => tallyBump a e.1) acc

/-- Step 1 of the matcher (src/lib/paths/path.js lines 327-354): the
`totalExamples` tally over every parameter examples map and every request
body content entry examples map. -/
def totalExamplesOf (p : Path) : List (String × ℕ) :=
  let t1 := p.parameters.foldl
    (fun acc param =>
      match param.examples with
      | some exs => tallyExamples exs acc
      | none => acc) []
  match p.requestBody with
  | some rb =>
    match rb.content with
    | some content =>
      content.foldl
        (fun acc ce =>
          match ce.2.examples with
          | some exs => tallyExamples exs acc
          | none => acc) t1
    | none => t1
  | none => t1

/-- The guard `Object.keys(totalExamples) === 0` (src/lib/paths/path.js line
357): a strict equality between an array (the result of `Object.keys`) and
the number `0`, which JavaScript evaluates to `false` for every operand, so
the intended empty-tally short-circuit can never fire. -/
def emptyTallyCheck (_totalExamples : List (String × ℕ)) : Bool := false

/-- Modelled from the spec: the external URI template binder (spec.md
section 6) consumed through `path-parser`: a template with brace-delimited
segments is matched segment-wise against a concrete path, binding each
template variable to the matched segment, or indicating no match. -/
def pathTest (template url : String) : Option (List (String × JsVal)) :=
  let ts := template.splitOn "/"
  let us := url.splitOn "/"
  if ts.length = us.length then
    (List.zip ts us).foldr
      (fun seg acc =>
        match acc with
        | none => none
        | some vars =>
          if seg.1.startsWith (String.mk [lbraceChar]) &&
              seg.1.endsWith (String.mk [rbraceChar]) then
            some (((seg.1.drop 1).dropRight 1, JsVal.str seg.2) :: vars)
          else if seg.1 = seg.2 then some vars
          else none)
      (some [])
  else none

/-- The inner example loop shared by the path/query/header facet blocks:
for every example under the found declaration whose value's
`Object.entries(...).toString()` form equals the actual facet value's,
bump the match tally (either side may throw a `TypeError` on a
`null`/`undefined` value). -/
def exListMatch (actual : JsVal) (exs : List (String × ExampleDecl))
    (acc : List (String × ℕ)) : Except JsErr (List (String × ℕ)) :=
  match exs with
  | [] => .ok acc
  | (exampleName, exampleData) :: rest =>
    match entriesToString exampleData.value with
    | .error e => .error e
    | .ok s1 =>
      match entriesToString actual with
      | .error e => .error e
      | .ok s2 =>
        exListMatch actual rest (if s1 = s2 then tallyBump acc exampleName else acc)

/-- Folds one facet's `(key, value)` entries, looking each key up among the
declared parameters with the facet's finder and matching the found
declaration's examples. -/
def matchEntriesWith (find : String → Option Param) :
    List (String × JsVal) → List (String × ℕ) → Except JsErr (List (String × ℕ))
  | [], acc => .ok acc
  | (k, v) :: rest, acc =>
    match find k with
    | some d =>
      match d.examples with
      | some exs =>
        match exListMatch v exs acc with
        | .error e => .error e
        | .ok acc2 => matchEntriesWith find rest acc2
      | none => matchEntriesWith find rest acc
    | none => matchEntriesWith find rest acc

/-- The path-variable facet block (src/lib/paths/path.js lines 360-379):
runs only when the URI contains a template variable; `Object.entries` of a
failed `path.test` (which yields `null`) throws. `this.parameters` is always
a truthy array. -/
def pathMatches (p : Path) (url : String) (acc : List (String × ℕ)) :
    Except JsErr (List (String × ℕ)) :=
  if strHasChar p.uri lbraceChar then
    match pathTest p.uri url with
    | none => .error .typeError
    | some pathVariable =>
      matchEntriesWith
        (fun pathKey => p.parameters.find? fun x =>
          x.paramIn == "path" && x.name == pathKey)
        pathVariable acc
  else .ok acc

/-- The query facet block (src/lib/paths/path.js lines 381-397): a truthy
raw query string is `JSON.parse`d — with no exception handler — and its
entries matched against the query parameter declarations. -/
def queryMatches (parameters : List Param) (rawQuery : RawJson)
    (acc : List (String × ℕ)) : Except JsErr (List (String × ℕ)) :=
  match rawQuery with
  | .absent => .ok acc
  | .malformed => .error .syntaxError
  | .wellFormed queries =>
    match jsEntries queries with
    | .error e => .error e
    | .ok entries =>
      matchEntriesWith
        (fun queryKey => parameters.find? fun x =>
          x.paramIn == "query" && x.name == queryKey)
        entries acc

/-- The header facet block (src/lib/paths/path.js lines 399-414): header
names compare case-insensitively on both sides. -/
def headerMatches (parameters : List Param) (requestHeaders : Option (List (String × JsVal)))
    (acc : List (String × ℕ)) : Except JsErr (List (String × ℕ)) :=
  match requestHeaders with
  | none => .ok acc
  | some hs =>
    matchEntriesWith
      (fun headerKey => parameters.find? fun x =>
        x.paramIn == "header" && lowerStr x.name == lowerStr headerKey)
      hs acc

/-- The per-content-entry example loop of the body facet block: compares by
`object-hash` equality; `Object.entries` of an absent examples map throws. -/
def bodyContentMatch (bodyObject : JsVal) :
    List (String × MediaType) → List (String × ℕ) → Except JsErr (List (String × ℕ))
  | [], acc => .ok acc
  | (_, mt) :: rest, acc =>
    match mt.examples with
    | none => .error .typeError
    | some exs =>
      bodyContentMatch bodyObject rest
        (exs.foldl (fun a e => if hashEq e.2.value bodyObject then tallyBump a e.1 else a) acc)

/-- The body facet block (src/lib/paths/path.js lines 416-431): a truthy
body argument with a declared content map is parsed (strings through
`JSON.parse`, again with no handler) and hash-compared against every content
entry's examples. -/
def bodyMatches (p : Path) (httpRequestBody : BodyArg) (acc : List (String × ℕ)) :
    Except JsErr (List (String × ℕ)) :=
  let bTruthy := match httpRequestBody with
    | .absent => false
    | .strWellFormed _ => true
    | .strMalformed => true
    | .direct v => truthy v
  if bTruthy then
    match p.requestBody with
    | none => .ok acc
    | some rb =>
      match rb.content with
      | none => .ok acc
      | some content =>
        match httpRequestBody with
        | .strMalformed => .error .syntaxError
        | .strWellFormed bodyObject => bodyContentMatch bodyObject content acc
        | .direct bodyObject => bodyContentMatch bodyObject content acc
        | .absent => .ok acc
  else .ok acc

/-- One step of the winner-selection loop (src/lib/paths/path.js lines
434-443): a qualifying entry (positive match count equal to its declared
total) replaces the current `responseName` when that is falsy (unassigned
*or* the empty string) or when the entry's match count strictly exceeds the
current name's declared total (`undefined` compares false). -/
def selectStep (totals : List (String × ℕ)) (responseName : Option String)
    (e : String × ℕ) : Option String :=
  if 0 < e.2 ∧ List.lookup e.1 totals = some e.2 then
    let take : Bool := match responseName with
      | none => true
      | some r =>
        decide (r = "") ||
          (match List.lookup r totals with
           | some t => decide (t < e.2)
           | none => false)
    if take then some e.1 else responseName
  else responseName

/-- Step 3 of the matcher: the fold of the selection loop over the match
tally in insertion order. -/
def selectWinner (matchExamples totals : List (String × ℕ)) : Option String :=
  matchExamples.foldl (selectStep totals) none

/-- `findPreferredExampleByRequest` (src/lib/paths/path.js lines 326-446):
tally, dead empty-tally short-circuit, the four facet blocks in source
order, then winner selection; `responseName` is returned as-is, so a run
with no qualifying example yields `undefined`, never the sentinel. -/
def findPreferredExampleByRequest (p : Path) (url : String) (rawQuery : RawJson)
    (httpRequestBody : BodyArg) (requestHeaders : Option (List (String × JsVal))) :
    Except JsErr MatchResult :=
  let totalExamples := totalExamplesOf p
  if emptyTallyCheck totalExamples then .ok .firstResponse
  else
    match pathMatches p url [] with
    | .error e => .error e
    | .ok m1 =>
      match queryMatches p.parameters rawQuery m1 with
      | .error e => .error e
      | .ok m2 =>
        match headerMatches p.parameters requestHeaders m2 with
        | .error e => .error e
        | .ok m3 =>
          match bodyMatches p httpRequestBody m3 with
          | .error e => .error e
          | .ok matchExamples =>
            .ok (match selectWinner matchExamples totalExamples with
              | some s => .exampleName s
              | none => .undefined)

/-! ## Specification-side definitions (for refinement statements) -/

/-- Whether a match-tally entry qualifies per the winner-selection rule: a
positive match count that equals the name's declared total. -/
def qualifiesB (totals : List (String × ℕ)) (e : String × ℕ) : Bool :=
  decide (0 < e.2) && decide (List.lookup e.1 totals = some e.2)

/-- One step of the specification-side selection: keep the earlier entry
unless the later one is strictly better. -/
def specStep (acc : Option (String × ℕ)) (e : String × ℕ) : Option (String × ℕ) :=
  match acc with
  | none => some e
  | some b => if b.2 < e.2 then some e else some b

/-- The winner selection as the specification words it: among qualifying
entries (for which the match count equals the declared total, so comparing
match counts is comparing declared totals), the one with the strictly
highest count, ties keeping the entry found first; `none` when no entry
qualifies. -/
def specSelect (matchExamples totals : List (String × ℕ)) : Option String :=
  ((matchExamples.filter (qualifiesB totals)).foldl specStep none).map fun b => b.1

/-! ## Concrete operations used as witnesses and counterexamples -/

/-- The operation of the spec's determinism property: one query parameter
`id` declaring examples `exA = 1` and `exB = 2`. -/
def opQuery : Path :=
  { uri := "/pets", httpMethod := "get",
    parameters :=
      [{ paramIn := "query", name := "id", required := false, deprecated := false,
         schema := some { type := some "integer", enum := none },
         examples := some [("exA", ⟨.num 1⟩), ("exB", ⟨.num 2⟩)] }],
    requestBody := none,
    responses :=
      [("200",
        { headers := none,
          content := some [("application/json",
            { schema := none,
              examples := some [("exA", ⟨.str "one"⟩), ("exB", ⟨.str "two"⟩)] })] })] }

/-- An operation declaring no examples anywhere. -/
def opNoExamples : Path :=
  { uri := "/pets", httpMethod := "get",
    parameters :=
      [{ paramIn := "query", name := "id", required := false, deprecated := false,
         schema := some { type := some "integer", enum := none }, examples := none }],
    requestBody := none,
    responses := [("200", { headers := none, content := none })] }

/-- An operation whose single response declares a headers map and a named
example `exA`. -/
def opExample : Path :=
  { uri := "/things", httpMethod := "get", parameters := [], requestBody := none,
    responses :=
      [("200",
        { headers := some [("x-test", .obj [("schema", .obj [("type", .str "string")])])],
          content := some [("application/json",
            { schema := none, examples := some [("exA", ⟨.str "hello"⟩)] })] })] }

/-- An operation declaring a request body with content and one body
example. -/
def opBody : Path :=
  { uri := "/b", httpMethod := "post", parameters := [],
    requestBody := some
      { required := false,
        content := some [("application/json",
          { schema := none, examples := some [("bodyEx", ⟨.obj [("a", .num 1)]⟩)] })] },
    responses := [("200", { headers := none, content := none })] }

/-- A required header parameter declared with the mixed-case name
`X-Token`. -/
def pTok : Param :=
  { paramIn := "header", name := "X-Token", required := true, deprecated := false,
    schema := none, examples := none }

/-- A request whose headers map carries `X-Token` under that same mixed-case
key. -/
def reqTok : JsRequest :=
  { headers := [("X-Token", .str "abc")], query := [], path := [], cookies := [],
    requestBody := none }

/-- A parameter that is optional and whose value is absent from its facet
map (header names looked up lowercased, as the validator does); parameters
with an invalid location are never considered optional-absent. -/
def paramOptionalAbsent (p : Param) (req : JsRequest) : Bool :=
  !p.required &&
    (match p.paramIn with
     | "header" => facetAbsent req.headers (lowerStr p.name)
     | "query" => facetAbsent req.query p.name
     | "path" => facetAbsent req.path p.name
     | "cookie" => facetAbsent req.cookies p.name
     | _ => false)

/-! ## String-message helper lemmas -/

theorem strHead_append (a x : String) (c : Char) (hc : a.data.head? = some c) :
    (a ++ x).data.head? = some c := by
  rcases a with ⟨d⟩
  rcases d with _ | ⟨h, t⟩
  · simp at hc
  · rw [String.data_append]
    simpa using hc

theorem strNe_of_head {s t : String} {c d : Char} (hc : s.data.head? = some c)
    (hd : t.data.head? = some d) (hne : c ≠ d) : s ≠ t := by
  intro h
  rw [h, hd] at hc
  exact hne (Option.some.inj hc).symm

theorem strNe_empty_of_head {s : String} {c : Char} (hc : s.data.head? = some c) :
    s ≠ "" := by
  intro h
  rw [h] at hc
  simp at hc

/-- The only exception `isValidType` throws carries the invalid-declaration
message. -/
theorem isValidType_error_shape (type : String) (value : JsVal) (m : String)
    (h : isValidType type value = .error m) : m = "Invalid type declaration " ++ type := by
  unfold isValidType at h
  split at h <;> simp_all

/-- Every message produced by `validateParameterType` starts with `I`. -/
theorem validateParameterType_head (paramIn name type : String) (value : JsVal) (m : String)
    (h : validateParameterType paramIn name type value = some m) :
    m.data.head? = some 'I' := by
  unfold validateParameterType at h
  cases hiv : isValidType type value with
  | ok b =>
    rw [hiv] at h
    cases b
    · simp at h
    · simp only [Option.some.injEq] at h
      rw [← h]
      repeat apply strHead_append
      rfl
  | error s =>
    rw [hiv] at h
    simp only [Option.some.injEq] at h
    rw [← h, isValidType_error_shape type value s hiv]
    repeat apply strHead_append
    rfl

/-- Every message produced by `validateParameterEnum` starts with `I`. -/
theorem validateParameterEnum_head (paramIn name : String) (enum : Option (List JsVal))
    (value : JsVal) (m : String)
    (h : validateParameterEnum paramIn name enum value = some m) :
    m.data.head? = some 'I' := by
  unfold validateParameterEnum at h
  split at h
  · simp at h
  · split at h
    · simp only [Option.some.injEq] at h
      rw [← h]
      repeat apply strHead_append
      rfl
    · simp at h

/-- Every message produced by `validateParameterSchema` starts with `I`. -/
theorem validateParameterSchema_head (p : Param) (value : JsVal) (m : String)
    (h : validateParameterSchema p value = some m) : m.data.head? = some 'I' := by
  unfold validateParameterSchema at h
  split at h
  · simp at h
  · split at h
    · simp at h
    · split at h
      · simp at h
      · unfold jsOrStr at h
        split at h
        · rename_i s hvpt
          split at h
          · exact validateParameterEnum_head _ _ _ _ _ h
          · simp only [Option.some.injEq] at h
            rw [← h]
            exact validateParameterType_head _ _ _ _ _ hvpt
        · exact validateParameterEnum_head _ _ _ _ _ h

/-- Every message produced by `_validateParameter` starts with `I` or
`M`. -/
theorem _validateParameter_head (p : Param) (fm : List (String × JsVal)) (m : String)
    (h : _validateParameter p fm = some m) :
    m.data.head? = some 'I' ∨ m.data.head? = some 'M' := by
  unfold _validateParameter at h
  split at h
  · split at h
    · simp only [Option.some.injEq] at h
      right
      rw [← h]
      repeat apply strHead_append
      rfl
    · simp at h
  · exact Or.inl (validateParameterSchema_head _ _ _ h)

/-- Every message produced by `validateParameter` starts with `I` or `M`. -/
theorem validateParameter_head (p : Param) (req : JsRequest) (m : String)
    (h : validateParameter p req = some m) :
    m.data.head? = some 'I' ∨ m.data.head? = some 'M' := by
  unfold validateParameter at h
  split at h <;> first
    | exact _validateParameter_head _ _ _ h
    | · simp only [Option.some.injEq] at h
        left
        rw [← h]
        repeat apply strHead_append
        rfl

/-- No parameter validation message is the empty string (so the source's
truthiness filter keeps exactly the failing parameters). -/
theorem validateParameter_ne_empty (p : Param) (req : JsRequest) (m : String)
    (h : validateParameter p req = some m) : m ≠ "" := by
  rcases validateParameter_head p req m h with h2 | h2 <;>
    exact strNe_empty_of_head h2

/-- `isValidType` on a type outside the six known declarations throws the
invalid-declaration error. -/
theorem isValidType_unknown (type : String) (value : JsVal)
    (ht : type ∉ (["array", "object", "string", "number", "integer", "boolean"] : List String)) :
    isValidType type value = .error ("Invalid type declaration " ++ type) := by
  unfold isValidType
  split <;> simp_all

/-- Claim C8: the type-checker table semantics on the spec's four probes,
and the invalid-declaration error message (merged with the parameter
context) for any declared type outside the six known ones, with no exception
escaping `validateParameterType`. -/
theorem claim_C8 :
    isValidType "integer" (.str "42") = .ok false ∧
    isValidType "integer" (.str "42.5") = .ok true ∧
    isValidType "boolean" (.str "true") = .ok false ∧
    isValidType "boolean" (.str "yes") = .ok true ∧
    ∀ type : String,
      type ∉ (["array", "object", "string", "number", "integer", "boolean"] : List String) →
      ∀ paramIn name : String, ∀ value : JsVal,
        validateParameterType paramIn name type value =
          some ("Invalid type declaration " ++ type ++ " for " ++ paramIn ++
            " param " ++ name) := by
  refine ⟨?_, ?_, ?_, ?_, ?_⟩
  · simp [isValidType, jsNumber, jsStrToNum, parseDecCore, splitDot, isJsWs, allDigits,
      digitsToNat, ratTrunc]
  · simp [isValidType, jsNumber, jsStrToNum, parseDecCore, splitDot, isJsWs, allDigits,
      digitsToNat, ratTrunc]
    norm_num
  · decide
  · decide
  · intro type ht paramIn name value
    rw [validateParameterType, isValidType_unknown type value ht]

/-- Witness for C8: the unknown-type branch evaluated at the concrete
declared type `weird`, together with one table probe. -/
theorem claim_C8_witness :
    validateParameterType "query" "foo" "weird" (.str "x") =
      some ("Invalid type declaration " ++ "weird" ++ " for " ++ "query" ++
        " param " ++ "foo") ∧
    isValidType "integer" (.str "42") = .ok false :=
  ⟨claim_C8.2.2.2.2 "weird" (by decide) "query" "foo" (.str "x"), claim_C8.1⟩

/-- Counterexample for C9 as stated: a request carrying the declared header
under its declared (non-lowercase) casing is *not* treated as present — the
validator lowercases only the declaration side, so the required-missing
error is produced although a casing variant of the header is present. -/
theorem claim_C9_cex :
    validateParameter pTok reqTok = some "Missing required header param x-token" := by
  simp [pTok, reqTok, validateParameter, _validateParameter, facetAbsent, lowerStr,
    Char.toLower]
  decide

/-- Claim C9 (amended): header validation lowercases only the declared
header name; for a required header parameter the missing error is produced
exactly when the request headers map has no value under that lowercased name
as an exact key (so a request-side key in any other casing does not count as
present). -/
theorem claim_C9 (p : Param) (req : JsRequest) (hin : p.paramIn = "header")
    (hreq : p.required = true) :
    (validateParameter p req =
      some ("Missing required " ++ p.paramIn ++ " param " ++ lowerStr p.name)) ↔
    facetAbsent req.headers (lowerStr p.name) = true := by
  have hv : validateParameter p req =
      _validateParameter { p with name := lowerStr p.name } req.headers := by
    unfold validateParameter
    rw [hin]
    rfl
  rw [hv]
  unfold _validateParameter
  constructor
  · intro h
    by_contra habs
    rw [if_neg (by simpa using habs)] at h
    have hI := validateParameterSchema_head _ _ _ h
    have hM : ("Missing required " ++ p.paramIn ++ " param " ++
        lowerStr p.name).data.head? = some 'M' := by
      repeat apply strHead_append
      rfl
    rw [hM] at hI
    simp at hI
  · intro habs
    rw [if_pos (by simpa using habs), if_pos (by simpa using hreq)]

/-- Witness for C9: the amended claim evaluated at the concrete `X-Token`
declaration and the request carrying the mixed-case key. -/
theorem claim_C9_witness :
    (validateParameter pTok reqTok =
      some ("Missing required " ++ pTok.paramIn ++ " param " ++ lowerStr pTok.name)) ↔
    facetAbsent reqTok.headers (lowerStr pTok.name) = true :=
  claim_C9 pTok reqTok rfl rfl

/-- The truthiness filter over mapped validations coincides with
`filterMap` whenever the validator never produces an empty message. -/
theorem jsTruthyFilter_eq_filterMap (l : List Param) (f : Param → Option String)
    (hf : ∀ q m, f q = some m → m ≠ "") :
    jsTruthyFilter (l.map f) = l.filterMap f := by
  induction l with
  | nil => rfl
  | cons q rest ih =>
    unfold jsTruthyFilter at ih ⊢
    cases hq : f q with
    | none => simpa [hq, List.filterMap_cons] using ih
    | some s =>
      have hs := hf q s hq
      simp [hq, List.filterMap_cons, hs, ih]

/-- An optional-and-absent parameter validates to nothing. -/
theorem validateParameter_optional_absent (parameter : Param) (req : JsRequest)
    (hopt : paramOptionalAbsent parameter req = true) :
    validateParameter parameter req = none := by
  unfold paramOptionalAbsent at hopt
  simp only [Bool.and_eq_true, Bool.not_eq_true'] at hopt
  obtain ⟨hreq, hfac⟩ := hopt
  split at hfac
  · rename_i heq
    simp only [validateParameter, heq]
    unfold _validateParameter
    rw [if_pos (by simpa using hfac), if_neg (by simp [hreq])]
  · rename_i heq
    simp only [validateParameter, heq]
    unfold _validateParameter
    rw [if_pos (by simpa using hfac), if_neg (by simp [hreq])]
  · rename_i heq
    simp only [validateParameter, heq]
    unfold _validateParameter
    rw [if_pos (by simpa using hfac), if_neg (by simp [hreq])]
  · rename_i heq
    simp only [validateParameter, heq]
    unfold _validateParameter
    rw [if_pos (by simpa using hfac), if_neg (by simp [hreq])]
  · simp at hfac

/-- Claim C10: `validateRequestParameters` is the body-validation messages
followed by exactly one message per failing parameter in declaration order
(the truthiness filter drops nothing else, since no message is empty);
optional-and-absent parameters contribute nothing; the empty list is
equivalent to the body validating and every parameter passing. -/
theorem claim_C10 (sv : SchemaValidatorT) (p : Path) (req : JsRequest) :
    validateRequestParameters sv p req =
      validateRequestBody sv p.requestBody req.requestBody ++
        p.parameters.filterMap (fun parameter => validateParameter parameter req) ∧
    (∀ parameter ∈ p.parameters, paramOptionalAbsent parameter req = true →
      validateParameter parameter req = none) ∧
    (validateRequestParameters sv p req = [] ↔
      validateRequestBody sv p.requestBody req.requestBody = [] ∧
        ∀ parameter ∈ p.parameters, validateParameter parameter req = none) := by
  have hdecomp : validateRequestParameters sv p req =
      validateRequestBody sv p.requestBody req.requestBody ++
        p.parameters.filterMap (fun parameter => validateParameter parameter req) := by
    unfold validateRequestParameters
    rw [jsTruthyFilter_eq_filterMap p.parameters
      (fun parameter => validateParameter parameter req)
      (fun q m hq => validateParameter_ne_empty q req m hq)]
  refine ⟨hdecomp, ?_, ?_⟩
  · intro parameter _ hopt
    exact validateParameter_optional_absent parameter req hopt
  · rw [hdecomp]
    simp [List.append_eq_nil, List.filterMap_eq_nil_iff]

/-- Witness for C10: the decomposition and emptiness equivalence evaluated
at a concrete validator, operation and request (one optional query parameter,
absent). -/
theorem claim_C10_witness :
    validateRequestParameters (fun _ _ => .ok []) opQuery
        { headers := [], query := [], path := [], cookies := [], requestBody := none } =
      validateRequestBody (fun _ _ => .ok []) opQuery.requestBody none ++
        opQuery.parameters.filterMap (fun parameter => validateParameter parameter
          { headers := [], query := [], path := [], cookies := [], requestBody := none }) :=
  (claim_C10 (fun _ _ => .ok []) opQuery
    { headers := [], query := [], path := [], cookies := [], requestBody := none }).1

/-- A response whose first content entry's examples never contain the
requested name is skipped by the scan callback. -/
theorem tryExampleResponse_not_found (n code : String) (resp : ResponseDecl)
    (h : ∀ mime mt, firstContent resp = some (mime, mt) →
      ∀ exs, mt.examples = some exs → List.lookup n exs = none) :
    tryExampleResponse n code resp = none := by
  unfold tryExampleResponse
  split
  · rfl
  · rename_i mime mt heq
    split
    · rfl
    · rename_i exs hex
      split
      · rfl
      · rw [h mime mt heq exs hex]

/-- When the requested name appears in no response, the scan finds nothing
and leaves the response list unchanged. -/
theorem scanResponses_not_found (n : String) (rs : List (String × ResponseDecl)) :
    (∀ cr ∈ rs, ∀ mime mt, firstContent cr.2 = some (mime, mt) →
      ∀ exs, mt.examples = some exs → List.lookup n exs = none) →
    scanResponses n rs = (none, rs) := by
  induction rs with
  | nil => intro _; rfl
  | cons cr rest ih =>
    intro h
    obtain ⟨code, resp⟩ := cr
    unfold scanResponses
    rw [tryExampleResponse_not_found n code resp (h (code, resp) (by simp))]
    rw [ih fun x hx => h x (List.mem_cons_of_mem _ hx)]

/-- Claim C6: with no preferred status code, a requested example name (a
non-empty string) that appears in no declared response's primary content
examples yields status 400 with the diagnostic `message` containing the
name, the `RTag` header generated back to the name, and a warning; with no
example name at all, status 400, null body, `application/json` mime and no
headers. -/
theorem claim_C6 (p : Path) (n : String) (hn : n ≠ "")
    (h : ∀ cr ∈ p.responses, ∀ mime mt, firstContent cr.2 = some (mime, mt) →
      ∀ exs, mt.examples = some exs → List.lookup n exs = none) :
    getResponse p none (ExamplePref.name n) = Except.ok
      { result :=
          { statusCode := JsVal.num 400,
            body := JsVal.obj [("message", JsVal.str
              ("SYSTEM: Could not find a response for example name '" ++ n ++ "'"))],
            responseMimeType := some "application/json",
            headers := some [("RTag", JsVal.str n)] },
        responses := p.responses,
        warnings := ["Could not find a response for example name " ++ n ++
          ". Responding with first response"] } ∧
    getResponse p none ExamplePref.noPref = Except.ok
      { result :=
          { statusCode := JsVal.num 400, body := JsVal.null,
            responseMimeType := some "application/json", headers := none },
        responses := p.responses, warnings := [] } := by
  have hscan := scanResponses_not_found n p.responses h
  constructor
  · simp [getResponse, getFirstResponseByExampleName, hn, hscan,
      generateResponseHeaders, generateHeader, getField, rtagVal, List.lookup]
  · simp [getResponse, getFirstResponseByExampleName]

/-- Witness for C6: the unknown name `missing` resolved against the
concrete operation `opExample`. -/
theorem claim_C6_witness :
    getResponse opExample none (ExamplePref.name "missing") = Except.ok
      { result :=
          { statusCode := JsVal.num 400,
            body := JsVal.obj [("message", JsVal.str
              ("SYSTEM: Could not find a response for example name '" ++ "missing" ++ "'"))],
            responseMimeType := some "application/json",
            headers := some [("RTag", JsVal.str "missing")] },
        responses := opExample.responses,
        warnings := ["Could not find a response for example name " ++ "missing" ++
          ". Responding with first response"] } :=
  (claim_C6 opExample "missing" (by decide) (by
    intro cr hcr mime mt hfc exs hex
    simp only [opExample, List.mem_singleton] at hcr
    subst hcr
    simp only [firstContent] at hfc
    simp at hfc
    obtain ⟨hmime, hmt⟩ := hfc
    subst hmt
    simp at hex
    subst hex
    simp [List.lookup])).1

/-- Claim C5 evaluated at its failing input: resolving the found example
name `exA` injects an `RTag` entry into the *declared* response headers map
of `opExample` — the operation declaration after the call differs from the
declaration before it, so `getResponse` is not mutation-free. -/
theorem claim_C5 :
    getResponse opExample none (ExamplePref.name "exA") = Except.ok
      { result :=
          { statusCode := JsVal.str "200",
            body := JsVal.str "hello",
            responseMimeType := some "application/json",
            headers := some [("x-test", JsVal.null), ("RTag", JsVal.str "exA")] },
        responses := [("200",
          { headers := some
              [("x-test", JsVal.obj [("schema", JsVal.obj [("type", JsVal.str "string")])]),
               ("RTag", rtagVal "exA")],
            content := some [("application/json",
              { schema := none, examples := some [("exA", ⟨JsVal.str "hello"⟩)] })] })],
        warnings := [] } ∧
    [("200",
      ({ headers := some
          [("x-test", JsVal.obj [("schema", JsVal.obj [("type", JsVal.str "string")])]),
           ("RTag", rtagVal "exA")],
         content := some [("application/json",
           { schema := none, examples := some [("exA", ⟨JsVal.str "hello"⟩)] })] } :
        ResponseDecl))] ≠ opExample.responses := by
  constructor
  · simp [getResponse, getFirstResponseByExampleName, scanResponses, tryExampleResponse,
      firstContent, opExample, List.lookup, truthy, upsertRTag, rtagVal,
      generateResponseHeaders, generateHeader, getField]
  · simp [opExample, rtagVal]

/-- Claim C7 at its failing input: the named-example resolution path returns
the status-code map *key* (the string `"200"`) unconverted, while the
explicit-status-code path returns the number `200`. -/
theorem claim_C7 :
    (getResponse opExample none (ExamplePref.name "exA")).map
        (fun out => out.result.statusCode) = Except.ok (JsVal.str "200") ∧
    JsVal.str "200" ≠ JsVal.num 200 ∧
    (getResponse opExample (some "200") ExamplePref.noPref).map
        (fun out => out.result.statusCode) = Except.ok (JsVal.num 200) := by
  refine ⟨?_, by simp, ?_⟩
  · simp [getResponse, getFirstResponseByExampleName, scanResponses, tryExampleResponse,
      firstContent, opExample, List.lookup, truthy, upsertRTag, rtagVal,
      generateResponseHeaders, generateHeader, getField, Except.map]
  · simp [getResponse, getResponseByStatusCode, opExample, List.lookup, Except.map,
      jsNumberVal, jsNumber, jsStrToNum, parseDecCore, splitDot, isJsWs, allDigits,
      digitsToNat]

/-- Claim C1 evaluated at its failing input: on `opQuery` a parsed query of
`id = 1` does resolve to `exA`, but a parsed query of `id = 3` *also*
resolves to `exA` instead of the first-response sentinel —
`Object.entries(v).toString()` is the empty string for every primitive, so
both declared example values "match" any primitive query value. -/
theorem claim_C1 :
    findPreferredExampleByRequest opQuery "/pets"
        (RawJson.wellFormed (.obj [("id", .num 1)])) BodyArg.absent none =
      Except.ok (MatchResult.exampleName "exA") ∧
    findPreferredExampleByRequest opQuery "/pets"
        (RawJson.wellFormed (.obj [("id", .num 3)])) BodyArg.absent none =
      Except.ok (MatchResult.exampleName "exA") := by
  constructor <;> decide

/-- Claim C3 evaluated at its failing input: on an operation with no
examples anywhere the matcher returns `undefined`, not the first-response
sentinel — the short-circuit `Object.keys(totalExamples) === 0` compares an
array against a number and never fires. -/
theorem claim_C3 :
    findPreferredExampleByRequest opNoExamples "/pets"
        (RawJson.wellFormed (.obj [("id", .num 1)])) BodyArg.absent none =
      Except.ok MatchResult.undefined ∧
    MatchResult.undefined ≠ MatchResult.firstResponse := by
  constructor <;> decide

/-- Counterexample for C2 as stated: a request on which no example name
qualifies (its query value is an object matching neither declared value)
makes the matcher return `undefined`, not the first-response sentinel the
claim promises. -/
theorem claim_C2_cex :
    findPreferredExampleByRequest opQuery "/pets"
        (RawJson.wellFormed (.obj [("id", .obj [("a", .num 1)])])) BodyArg.absent none =
      Except.ok MatchResult.undefined ∧
    MatchResult.undefined ≠ MatchResult.firstResponse := by
  constructor
  · simp [findPreferredExampleByRequest, emptyTallyCheck, totalExamplesOf, opQuery,
      tallyExamples, tallyBump, pathMatches, strHasChar, lbraceChar, queryMatches,
      jsEntries, matchEntriesWith, exListMatch, entriesToString, Except.map, joinSep,
      jsElemToString, jsToString, numToString, intToString, headerMatches, bodyMatches,
      selectWinner, selectStep, List.lookup]
    decide
  · decide

/-- Counterexample for C4 as stated: a malformed raw query string makes
`findPreferredExampleByRequest` propagate the parse exception instead of
treating the facet as a non-match and returning a result. -/
theorem claim_C4_cex :
    findPreferredExampleByRequest opQuery "/pets" RawJson.malformed BodyArg.absent none =
      Except.error JsErr.syntaxError := by
  decide

/-- The selection fold agrees with the specification-side selection when
every tallied name is non-empty, for any pair of related accumulators. -/
theorem selectWinner_spec_aux (totals : List (String × ℕ)) (ms : List (String × ℕ)) :
    ∀ (accL : Option String) (accR : Option (String × ℕ)),
      (∀ e ∈ ms, e.1 ≠ "") →
      (match accL, accR with
       | none, none => True
       | some r, some b => r = b.1 ∧ r ≠ "" ∧ List.lookup r totals = some b.2
       | _, _ => False) →
      ms.foldl (selectStep totals) accL =
        ((ms.filter (qualifiesB totals)).foldl specStep accR).map (fun b => b.1) := by
  induction ms with
  | nil =>
    intro accL accR _ hacc
    cases accL with
    | none =>
      cases accR with
      | none => rfl
      | some b => exact hacc.elim
    | some r =>
      cases accR with
      | none => exact hacc.elim
      | some b =>
        obtain ⟨h1, -, -⟩ := hacc
        simp [h1]
  | cons e rest ih =>
    intro accL accR hne hacc
    have hne' : ∀ x ∈ rest, x.1 ≠ "" := fun x hx => hne x (List.mem_cons_of_mem _ hx)
    cases hq : qualifiesB totals e with
    | false =>
      have hcond : ¬(0 < e.2 ∧ List.lookup e.1 totals = some e.2) := by
        simpa [qualifiesB] using hq
      have hstep : selectStep totals accL e = accL := by
        unfold selectStep
        rw [if_neg hcond]
      rw [List.foldl_cons, hstep, List.filter_cons_of_neg (by simp [hq])]
      exact ih accL accR hne' hacc
    | true =>
      have hcond : 0 < e.2 ∧ List.lookup e.1 totals = some e.2 := by
        simpa [qualifiesB] using hq
      rw [List.foldl_cons, List.filter_cons_of_pos (by simp [hq]), List.foldl_cons]
      cases accL with
      | none =>
        cases accR with
        | some b => exact hacc.elim
        | none =>
          have hstep : selectStep totals none e = some e.1 := by
            unfold selectStep
            rw [if_pos hcond]
            rfl
          rw [hstep]
          exact ih (some e.1) (some e) hne' ⟨rfl, hne e (by simp), hcond.2⟩
      | some r =>
        cases accR with
        | none => exact hacc.elim
        | some b =>
          obtain ⟨hrb, hrne, hrt⟩ := hacc
          by_cases hlt : b.2 < e.2
          · have hstep : selectStep totals (some r) e = some e.1 := by
              unfold selectStep
              rw [if_pos hcond]
              simp [hrne, hrt, hlt]
            have hspec : specStep (some b) e = some e := by
              unfold specStep
              simp [hlt]
            rw [hstep, hspec]
            exact ih (some e.1) (some e) hne' ⟨rfl, hne e (by simp), hcond.2⟩
          · have hstep : selectStep totals (some r) e = some r := by
              unfold selectStep
              rw [if_pos hcond]
              simp [hrne, hrt, hlt]
            have hspec : specStep (some b) e = some b := by
              unfold specStep
              simp [hlt]
            rw [hstep, hspec]
            exact ih (some r) (some b) hne' ⟨hrb, hrne, hrt⟩

/-- With no qualifying entry the selection fold never assigns a winner. -/
theorem selectWinner_none_of_no_qualifier (totals ms : List (String × ℕ)) :
    (∀ e ∈ ms, qualifiesB totals e = false) → selectWinner ms totals = none := by
  induction ms with
  | nil => intro _; rfl
  | cons e rest ih =>
    intro h
    have hcond : ¬(0 < e.2 ∧ List.lookup e.1 totals = some e.2) := by
      simpa [qualifiesB] using h e (by simp)
    have hstep : selectStep totals none e = none := by
      unfold selectStep
      rw [if_neg hcond]
    show (e :: rest).foldl (selectStep totals) none = none
    rw [List.foldl_cons, hstep]
    exact ih fun x hx => h x (List.mem_cons_of_mem _ hx)

/-- The matcher can never produce the first-response sentinel: its only
sentinel return sits behind the dead `Object.keys(...) === 0` guard. -/
theorem findPreferred_ne_firstResponse (p : Path) (url : String) (rq : RawJson)
    (b : BodyArg) (hd : Option (List (String × JsVal))) (r : MatchResult)
    (h : findPreferredExampleByRequest p url rq b hd = Except.ok r) :
    r ≠ MatchResult.firstResponse := by
  unfold findPreferredExampleByRequest at h
  simp only [emptyTallyCheck, Bool.false_eq_true, if_false] at h
  split at h
  · simp at h
  · split at h
    · simp at h
    · split at h
      · simp at h
      · split at h
        · simp at h
        · simp only [Except.ok.injEq] at h
          subst h
          cases selectWinner _ (totalExamplesOf p) <;> simp

/-- Claim C2 (amended): an entry qualifies exactly when its match counter is
positive and equals its declared total; among qualifying entries — all
example names being non-empty strings — the selection fold picks the one
with the strictly highest count, ties keeping the entry found first (the
specification-side `specSelect`); with no qualifying entry it picks nothing;
and the matcher as a whole returns `undefined` in that case, never the
first-response sentinel. -/
theorem claim_C2 (ms totals : List (String × ℕ)) (hne : ∀ e ∈ ms, e.1 ≠ "") :
    selectWinner ms totals = specSelect ms totals ∧
    ((∀ e ∈ ms, qualifiesB totals e = false) → selectWinner ms totals = none) ∧
    (∀ (p : Path) (url : String) (rq : RawJson) (b : BodyArg)
        (hd : Option (List (String × JsVal))) (r : MatchResult),
      findPreferredExampleByRequest p url rq b hd = Except.ok r →
      r ≠ MatchResult.firstResponse) :=
  ⟨selectWinner_spec_aux totals ms none none hne True.intro,
   selectWinner_none_of_no_qualifier totals ms,
   findPreferred_ne_firstResponse⟩

/-- Witness for C2: the amended claim instantiated at a concrete match tally
(`exA` fully matched, `exB` matched beyond its total) and totals map. -/
theorem claim_C2_witness :
    selectWinner [("exA", 1), ("exB", 2)] [("exA", 1), ("exB", 1)] =
      specSelect [("exA", 1), ("exB", 2)] [("exA", 1), ("exB", 1)] ∧
    ((∀ e ∈ ([("exA", 1), ("exB", 2)] : List (String × ℕ)),
        qualifiesB [("exA", 1), ("exB", 1)] e = false) →
      selectWinner [("exA", 1), ("exB", 2)] [("exA", 1), ("exB", 1)] = none) ∧
    (∀ (p : Path) (url : String) (rq : RawJson) (b : BodyArg)
        (hd : Option (List (String × JsVal))) (r : MatchResult),
      findPreferredExampleByRequest p url rq b hd = Except.ok r →
      r ≠ MatchResult.firstResponse) :=
  claim_C2 [("exA", 1), ("exB", 2)] [("exA", 1), ("exB", 1)] (by decide)

/-- Claim C4 (amended): a truthy but malformed raw query string — or, when a
request body with a content map is declared, a truthy but malformed raw body
— makes `findPreferredExampleByRequest` propagate the `JSON.parse` exception
(shown for operations whose URI declares no template variable, which keeps
the earlier path-facet block inert); the malformed facet is not contained as
a non-match. -/
theorem claim_C4 (p : Path) (h : strHasChar p.uri lbraceChar = false) :
    (∀ (url : String) (b : BodyArg) (hd : Option (List (String × JsVal))),
      findPreferredExampleByRequest p url RawJson.malformed b hd =
        Except.error JsErr.syntaxError) ∧
    (∀ (url : String) (rb : RequestBody) (cs : List (String × MediaType)),
      p.requestBody = some rb → rb.content = some cs →
      findPreferredExampleByRequest p url RawJson.absent BodyArg.strMalformed none =
        Except.error JsErr.syntaxError) := by
  constructor
  · intro url b hd
    simp [findPreferredExampleByRequest, emptyTallyCheck, pathMatches, h, queryMatches]
  · intro url rb cs hrb hc
    simp [findPreferredExampleByRequest, emptyTallyCheck, pathMatches, h, queryMatches,
      headerMatches, bodyMatches, hrb, hc]

/-- Witness for C4: both malformed facets evaluated on the concrete
operation `opBody` (which declares a request body content map). -/
theorem claim_C4_witness :
    findPreferredExampleByRequest opBody "/x" RawJson.malformed BodyArg.absent none =
      Except.error JsErr.syntaxError ∧
    findPreferredExampleByRequest opBody "/x" RawJson.absent BodyArg.strMalformed none =
      Except.error JsErr.syntaxError :=
  ⟨(claim_C4 opBody (by decide)).1 "/x" BodyArg.absent none,
   (claim_C4 opBody (by decide)).2 "/x"
     { required := false,
       content := some [("application/json",
         { schema := none, examples := some [("bodyEx", ⟨.obj [("a", .num 1)]⟩)] })] }
     [("application/json",
       { schema := none, examples := some [("bodyEx", ⟨.obj [("a", .num 1)]⟩)] })]
     rfl rfl⟩

end OpenApiMock
